import Mathlib

/-!
Verification of the forecasting and event-effect overlay engine of the
Ethiopia financial-inclusion dashboard (`src/dashboard/app.py`).

The embedding below translates the pandas/numpy code into pure Lean
functions over `ℚ` (exact arithmetic standing for the floats of the
source) and `Option` (standing for NaN/NaT/missing values).  Dates are
reduced to year/month/day triples: `pd.DateOffset(months=m)` shifts the
month index by `m` and clamps the day inside the resulting month, so the
year of the shifted date depends only on the shifted month index.
-/

/-- Calendar date as carried by a pandas timestamp, reduced to the fields
that the dashboard code observes: the year, the month and the day
(`DateOffset` month arithmetic and `dt.year`, plus date ordering). -/
structure MDate where
  year : Int
  month : Int
  day : Int
deriving DecidableEq

/-- Months elapsed since month 1 of year 0; `pd.DateOffset(months=m)`
adds `m` to this index. -/
def monthIndex (d : MDate) : Int :=
  d.year * 12 + (d.month - 1)

/-- Python `int()` applied to a float: truncation toward zero, that is
floor for non-negative arguments and ceiling for negative ones. -/
def truncQ (q : ℚ) : Int :=
  if 0 ≤ q then ⌊q⌋ else ⌈q⌉

/-- Year of `event_date + pd.DateOffset(months=m)`: day clamping never
leaves the target month, so the year is the floor-division of the shifted
month index by 12. -/
def addMonthsYear (d : MDate) (m : Int) : Int :=
  (monthIndex d + m).fdiv 12

/-- One row of the unified record table (`ethiopia_fi_unified_data.csv`
after `load_data`).  Every field the engine reads is optional: `none`
stands for NaN/NaT. -/
structure Rec where
  record_type : Option String := none
  record_id : Option String := none
  parent_id : Option String := none
  observation_date : Option MDate := none
  indicator : Option String := none
  related_indicator : Option String := none
  impact_magnitude : Option String := none
  impact_direction : Option String := none
  lag_months : Option ℚ := none
  indicator_code : Option String := none
  gender : Option String := none
  value_numeric : Option ℚ := none
deriving DecidableEq

/-- The fixed magnitude table of `build_event_effects`
(`magnitude_map` in the source). -/
def magnitude_map : List (String × ℚ) :=
  [("high", 15/100), ("medium", 8/100), ("low", 3/100), ("negligible", 1/100)]

/-- The fixed direction table of `build_event_effects`
(`direction_map` in the source). -/
def direction_map : List (String × ℚ) :=
  [("increase", 1), ("decrease", -1), ("stabilize", 0), ("mixed", 0)]

/-- `joined["impact_magnitude"].map(magnitude_map).fillna(0.0)`:
dictionary lookup, NaN (missing key or missing value) replaced by 0. -/
def effect_size (m : Option String) : ℚ :=
  (m.bind (fun s => magnitude_map.lookup s)).getD 0

/-- `joined["impact_direction"].map(direction_map).fillna(0.0)`. -/
def direction_sign (dOpt : Option String) : ℚ :=
  (dOpt.bind (fun s => direction_map.lookup s)).getD 0

/-- `joined["effect"] = joined["effect_size"] * joined["direction_sign"]`. -/
def linkEffect (m dOpt : Option String) : ℚ :=
  effect_size m * direction_sign dOpt

/-- The inner `effect_series` function of `build_event_effects`: a NaT
date contributes nothing; otherwise the effect ramps over the three years
starting at the year of `event_date + DateOffset(months=int(lag))`, with
weights `np.linspace(0.3, 1.0, 3) = [0.3, 0.65, 1.0]`. -/
def effect_series (event_date : Option MDate) (effect : ℚ) (lag : ℚ) : List (Int × ℚ) :=
  match event_date with
  | none => []
  | some d =>
      [(addMonthsYear d (truncQ lag), effect * (3/10)),
       (addMonthsYear d (truncQ lag) + 1, effect * (13/20)),
       (addMonthsYear d (truncQ lag) + 2, effect * 1)]

/-- Insert `x` into `l` before the first element `y` with `le x y`. -/
def insertLe {α : Type} (le : α → α → Bool) (x : α) : List α → List α
  | [] => [x]
  | y :: ys => if le x y then x :: y :: ys else y :: insertLe le x ys

/-- Stable insertion sort with respect to the boolean relation `le`. -/
def insertionSort {α : Type} (le : α → α → Bool) : List α → List α
  | [] => []
  | x :: xs => insertLe le x (insertionSort le xs)

/-- Boolean order on integers, for sorting group keys. -/
def intLe (a b : Int) : Bool :=
  decide (a ≤ b)

/-- `pd.DataFrame(effects).groupby("year")["effect"].sum()`: one entry
per distinct year, keys ascending, values summed. -/
def groupSum (l : List (Int × ℚ)) : List (Int × ℚ) :=
  (insertionSort intLe (l.map Prod.fst).dedup).map
    (fun y => (y, ((l.filter (fun p => decide (p.1 = y))).map Prod.snd).sum))

/-- The left merge of `build_event_effects`:
`links.merge(events[["record_id", "observation_date", "indicator"]],
left_on="parent_id", right_on="record_id", how="left")`.
Each link row is paired with every event whose `record_id` equals the
link's `parent_id`; a link with no match (or a NaN `parent_id`, which
joins to nothing) is kept once with an absent event. -/
def joinedRows (events links : List Rec) : List (Rec × Option Rec) :=
  links.flatMap (fun l =>
    match l.parent_id with
    | none => [(l, none)]
    | some pid =>
        match events.filter (fun e => decide (e.record_id = some pid)) with
        | [] => [(l, none)]
        | ms => ms.map (fun e => (l, some e)))

/-- `build_event_effects(df, target_code)`.  Note the faithful quirk of
the source: after the merge with `suffixes=("", "_event")` the column
`"observation_date"` read by `effect_series(row["observation_date"], ...)`
is the impact link's own date, while the parent event's date sits in the
never-read column `"observation_date_event"` (here the second component
of the joined pair, which is carried but never consumed). -/
def build_event_effects (df : List Rec) (target : String) : List (Int × ℚ) :=
  let events := df.filter (fun r => decide (r.record_type = some ("event")))
  let links := df.filter (fun r => decide (r.record_type = some ("impact_link")))
  if events.isEmpty || links.isEmpty then []
  else
    let joined := joinedRows events links
    let effects := (joined.filter (fun j => decide (j.1.related_indicator = some target))).flatMap
      (fun j => effect_series j.1.observation_date
        (linkEffect j.1.impact_magnitude j.1.impact_direction)
        (j.1.lag_months.getD 0))
    if effects.isEmpty then [] else groupSum effects

/-- Record table for the C1 check: one event dated 2020-01 with a single
impact link (high, increase, lag 12 months, related indicator X) whose
own `observation_date` is missing. -/
def c1_df : List Rec :=
  [{ record_type := some ("event"), record_id := some ("E1"),
     observation_date := some ⟨2020, 1, 15⟩ },
   { record_type := some ("impact_link"), parent_id := some ("E1"),
     related_indicator := some ("X"), impact_magnitude := some ("high"),
     impact_direction := some ("increase"), lag_months := some 12 }]

/-- Same table, but the link carries its own `observation_date` 2019-06,
different from the parent event's 2020-01. -/
def c1b_df : List Rec :=
  [{ record_type := some ("event"), record_id := some ("E1"),
     observation_date := some ⟨2020, 1, 15⟩ },
   { record_type := some ("impact_link"), parent_id := some ("E1"),
     observation_date := some ⟨2019, 6, 1⟩,
     related_indicator := some ("X"), impact_magnitude := some ("high"),
     impact_direction := some ("increase"), lag_months := some 12 }]

/-- Record table for the C4 check: the event table is non-empty, and the
single impact link references a parent that does not exist while carrying
a valid own `observation_date` 2020-02. -/
def c4_df : List Rec :=
  [{ record_type := some ("event"), record_id := some ("E0"),
     observation_date := some ⟨2015, 1, 1⟩ },
   { record_type := some ("impact_link"), parent_id := some ("NOPE"),
     observation_date := some ⟨2020, 2, 1⟩,
     related_indicator := some ("X"), impact_magnitude := some ("high"),
     impact_direction := some ("increase"), lag_months := some 0 }]

/-- Record table parameterized by the link's `lag_months`, with the
link's own date equal to its parent event's date 2020-01. -/
def lagDf (q : ℚ) : List Rec :=
  [{ record_type := some ("event"), record_id := some ("E1"),
     observation_date := some ⟨2020, 1, 15⟩ },
   { record_type := some ("impact_link"), parent_id := some ("E1"),
     observation_date := some ⟨2020, 1, 15⟩,
     related_indicator := some ("X"), impact_magnitude := some ("high"),
     impact_direction := some ("increase"), lag_months := some q }]

/-- One row of the series frame handed to `fit_linear_forecast`: the
`year` column (float in pandas, since NaT dates produce NaN years) and
`value_numeric`. -/
structure SeriesRow where
  year : Option ℚ := none
  value_numeric : Option ℚ := none
deriving DecidableEq

/-- `series_df.dropna(subset=["year", "value_numeric"])` followed by the
extraction of the x and y vectors. -/
def validPoints (rows : List SeriesRow) : List (ℚ × ℚ) :=
  rows.filterMap (fun r =>
    match r.year, r.value_numeric with
    | some x, some y => some ((x, y))
    | _, _ => none)

/-- Sum of the x values of a point list. -/
def sX (pts : List (ℚ × ℚ)) : ℚ :=
  (pts.map Prod.fst).sum

/-- Sum of the y values. -/
def sY (pts : List (ℚ × ℚ)) : ℚ :=
  (pts.map Prod.snd).sum

/-- Sum of the squared x values. -/
def sXX (pts : List (ℚ × ℚ)) : ℚ :=
  (pts.map (fun p => p.1 * p.1)).sum

/-- Sum of the products x*y. -/
def sXY (pts : List (ℚ × ℚ)) : ℚ :=
  (pts.map (fun p => p.1 * p.2)).sum

/-- Number of points, as a rational. -/
def nQ (pts : List (ℚ × ℚ)) : ℚ :=
  (pts.length : ℚ)

/-- Determinant of the 2×2 normal-equation system; nonzero exactly when
the degree-1 least-squares problem has a unique solution (i.e. not all x
values coincide). -/
def olsDenom (pts : List (ℚ × ℚ)) : ℚ :=
  nQ pts * sXX pts - sX pts * sX pts

/-- The slope returned by `np.polyfit(X, y, 1)` in exact arithmetic:
closed-form solution of the least-squares normal equations. -/
def polyfitSlope (pts : List (ℚ × ℚ)) : ℚ :=
  (nQ pts * sXY pts - sX pts * sY pts) / olsDenom pts

/-- The intercept returned by `np.polyfit(X, y, 1)` in exact
arithmetic. -/
def polyfitIntercept (pts : List (ℚ × ℚ)) : ℚ :=
  (sY pts - polyfitSlope pts * sX pts) / nQ pts

/-- Sum of squared errors of the affine model `y = a + b*x` over the
points — the objective that ordinary least squares minimizes (this is the
specification-side notion used to state that `np.polyfit` returns the
exact OLS solution). -/
def SSE (pts : List (ℚ × ℚ)) (a b : ℚ) : ℚ :=
  (pts.map (fun p => (p.2 - (a + b * p.1)) ^ 2)).sum

/-- `residuals = y - (intercept + slope * X)` over the historical
points. -/
def residualsOf (pts : List (ℚ × ℚ)) : List ℚ :=
  pts.map (fun p => p.2 - (polyfitIntercept pts + polyfitSlope pts * p.1))

/-- Arithmetic mean of a list of rationals. -/
def meanQ (l : List ℚ) : ℚ :=
  l.sum / (l.length : ℚ)

/-- Square of `np.std(ddof=1)`: the unbiased sample variance, mean
subtracted, denominator N−1. -/
def sampleVar (l : List ℚ) : ℚ :=
  ((l.map (fun r => (r - meanQ l) ^ 2)).sum) / ((l.length : ℚ) - 1)

/-- `sigma = residuals.std(ddof=1) if len(residuals) > 1 else 0`. -/
noncomputable def sigmaOf (l : List ℚ) : ℝ :=
  if 1 < l.length then Real.sqrt ((sampleVar l : ℚ) : ℝ) else 0

/-- One output row of `fit_linear_forecast`; `none` stands for NaN. -/
structure ForecastRow where
  year : Int
  forecast : Option ℚ
  ci_low : Option ℝ
  ci_high : Option ℝ

/-- `fit_linear_forecast(series_df, years)`: with fewer than 2 valid
points every column is NaN; otherwise the OLS line is evaluated at each
target year and the fixed 1.96-sigma band is attached. -/
noncomputable def fit_linear_forecast (rows : List SeriesRow) (years : List Int) : List ForecastRow :=
  if (validPoints rows).length < 2 then
    years.map (fun y => ⟨y, none, none, none⟩)
  else
    years.map (fun y =>
      ⟨y,
       some (polyfitIntercept (validPoints rows) + polyfitSlope (validPoints rows) * (y : ℚ)),
       some (((polyfitIntercept (validPoints rows) + polyfitSlope (validPoints rows) * (y : ℚ) : ℚ) : ℝ)
         - (196/100 : ℝ) * sigmaOf (residualsOf (validPoints rows))),
       some (((polyfitIntercept (validPoints rows) + polyfitSlope (validPoints rows) * (y : ℚ) : ℚ) : ℝ)
         + (196/100 : ℝ) * sigmaOf (residualsOf (validPoints rows)))⟩)

/-- Historical series 2018..2022 with values 10,20,30,40,50 (exactly
linear, slope 10). -/
def linRows : List SeriesRow :=
  [{ year := some 2018, value_numeric := some 10 },
   { year := some 2019, value_numeric := some 20 },
   { year := some 2020, value_numeric := some 30 },
   { year := some 2021, value_numeric := some 40 },
   { year := some 2022, value_numeric := some 50 }]

/-- Series frame with a single valid point. -/
def c5_rows : List SeriesRow :=
  [{ year := some 2020, value_numeric := some 10 }]

/-- Output row of the Forecasts tab after the event step: the original
columns plus `forecast_event`. -/
structure AdjRow where
  year : Int
  forecast : Option ℚ
  ci_low : Option ℝ
  ci_high : Option ℝ
  forecast_event : Option ℚ

/-- Projection back onto the original forecast columns. -/
def forecastPart (r : AdjRow) : ForecastRow :=
  ⟨r.year, r.forecast, r.ci_low, r.ci_high⟩

/-- The Forecasts-tab event step:
`fc["forecast_event"] = fc["forecast"] + fc["year"].map(effects).fillna(0)`.
A year absent from the effect mapping contributes 0; a NaN forecast stays
NaN. -/
def add_event_effects (fc : List ForecastRow) (effects : List (Int × ℚ)) : List AdjRow :=
  fc.map (fun r =>
    ⟨r.year, r.forecast, r.ci_low, r.ci_high,
     r.forecast.map (fun v => v + ((effects.lookup r.year).getD 0))⟩)

/-- The three scenarios offered by the Inclusion Projections selectbox. -/
inductive Scenario where
  | pessimistic
  | base
  | optimistic
deriving DecidableEq

/-- `scenario_factors = {"pessimistic": 0.85, "base": 1.0, "optimistic": 1.15}`. -/
def scenario_factors : Scenario → ℚ
  | Scenario.pessimistic => 85/100
  | Scenario.base => 1
  | Scenario.optimistic => 115/100

/-- Output row of the Inclusion Projections tab: the original columns
plus the scenario-scaled forecast. -/
structure ScenRow where
  year : Int
  forecast : Option ℚ
  ci_low : Option ℝ
  ci_high : Option ℝ
  scenario : Option ℚ

/-- Projection back onto the original forecast columns. -/
def scenKeep (r : ScenRow) : ForecastRow :=
  ⟨r.year, r.forecast, r.ci_low, r.ci_high⟩

/-- The Inclusion Projections scenario step:
`fc["scenario"] = fc["forecast"] * scenario_factors[scenario]` — a total
function of the row list and the selected scenario. -/
def apply_scenario (fc : List ForecastRow) (s : Scenario) : List ScenRow :=
  fc.map (fun r =>
    ⟨r.year, r.forecast, r.ci_low, r.ci_high,
     r.forecast.map (fun v => v * scenario_factors s)⟩)

/-- Lexicographic boolean order on dates (year, then month, then day). -/
def dateLe (a b : MDate) : Bool :=
  decide (a.year < b.year)
    || (decide (a.year = b.year)
        && (decide (a.month < b.month)
            || (decide (a.month = b.month) && decide (a.day ≤ b.day))))

/-- The filter of `trend_growth`: rows of the given indicator, gender and
`record_type == "observation"`, then
`dropna(subset=["value_numeric", "observation_date"])`. -/
def qualifying (df : List Rec) (code gender : String) : List Rec :=
  (df.filter (fun r =>
      decide (r.indicator_code = some code)
        && decide (r.gender = some gender)
        && decide (r.record_type = some ("observation")))).filter
    (fun r => r.value_numeric.isSome && r.observation_date.isSome)

/-- `sort_values("observation_date")` on rows whose date is present. -/
def sortByDate (l : List Rec) : List Rec :=
  insertionSort
    (fun a b => dateLe (a.observation_date.getD ⟨0, 0, 0⟩) (b.observation_date.getD ⟨0, 0, 0⟩)) l

/-- `trend_growth(df, code, gender)`: absent with fewer than two
qualifying points, else the last sorted value minus the previous one. -/
def trend_growth (df : List Rec) (code gender : String) : Option ℚ :=
  if (sortByDate (qualifying df code gender)).length < 2 then none
  else
    match (sortByDate (qualifying df code gender)).reverse with
    | a :: b :: _ => some (a.value_numeric.getD 0 - b.value_numeric.getD 0)
    | _ => none

/-- Observation row of indicator ACC, gender all, year 2020, value 10. -/
def c9r1 : Rec :=
  { record_type := some ("observation"), indicator_code := some ("ACC"),
    gender := some ("all"), observation_date := some ⟨2020, 1, 1⟩,
    value_numeric := some 10 }

/-- Observation row of indicator ACC, gender all, year 2021, value 15. -/
def c9r2 : Rec :=
  { record_type := some ("observation"), indicator_code := some ("ACC"),
    gender := some ("all"), observation_date := some ⟨2021, 1, 1⟩,
    value_numeric := some 15 }

/-- Record table with a single qualifying observation. -/
def c9_one : List Rec :=
  [c9r1]

/-- Record table with two qualifying observations (2020: 10, 2021: 15). -/
def c9_two : List Rec :=
  [c9r1, c9r2]

/-- Forecast table with one row, for instantiating the event-addition and
scenario theorems. -/
def fcEx : List ForecastRow :=
  [⟨2025, some 10, some 1, some 2⟩]

/-- Effect mapping with one entry, matching the row of `fcEx`. -/
def effEx : List (Int × ℚ) :=
  [(2025, 3)]


/-- Unfolding of `List.lookup` one association at a time, with a
propositional condition. -/
lemma lookup_cons_eq (s k : String) (v : ℚ) (rest : List (String × ℚ)) :
    List.lookup s ((k, v) :: rest) = if s = k then some v else List.lookup s rest := by
  by_cases h : s = k
  · subst h
    simp [List.lookup]
  · have hb : (s == k) = false := by
      simpa using h
    simp [List.lookup, hb, h]

/-- The magnitude table as a conditional chain: the source's dictionary
lookup with `fillna(0.0)` gives 0.15, 0.08, 0.03, 0.01 on the four known
keys and 0.0 on everything else (missing key included). -/
lemma effect_size_eq (m : Option String) :
    effect_size m =
      (if m = some ("high") then (15/100 : ℚ)
       else if m = some ("medium") then 8/100
       else if m = some ("low") then 3/100
       else if m = some ("negligible") then 1/100
       else 0) := by
  rcases m with _ | s
  · simp [effect_size]
  · simp only [effect_size, magnitude_map, lookup_cons_eq, Option.some.injEq, Option.bind_eq_bind,
      Option.some_bind]
    split_ifs <;> simp_all [List.lookup]

/-- The direction table as a conditional chain: +1 for increase, −1 for
decrease, 0 for stabilize, mixed, anything unrecognized, or missing. -/
lemma direction_sign_eq (dOpt : Option String) :
    direction_sign dOpt =
      (if dOpt = some ("increase") then (1 : ℚ)
       else if dOpt = some ("decrease") then -1
       else 0) := by
  rcases dOpt with _ | s
  · simp [direction_sign]
  · simp only [direction_sign, direction_map, lookup_cons_eq, Option.some.injEq,
      Option.bind_eq_bind, Option.some_bind]
    split_ifs <;> simp_all [List.lookup]

/-- Claim C3: every impact link's scalar effect is `effect_size * sign`
with the fixed magnitude table, the fixed direction table and default 0
for unrecognized or missing values; the computation is total, so no input
ever raises an error. -/
theorem c3_link_effect_table (m dOpt : Option String) :
    linkEffect m dOpt =
      (if m = some ("high") then (15/100 : ℚ)
       else if m = some ("medium") then 8/100
       else if m = some ("low") then 3/100
       else if m = some ("negligible") then 1/100
       else 0) *
      (if dOpt = some ("increase") then (1 : ℚ)
       else if dOpt = some ("decrease") then -1
       else 0) := by
  rw [linkEffect, effect_size_eq, direction_sign_eq]

unseal Rat.add Rat.sub Rat.mul Rat.inv in
/-- Claim C1 (refuted, code bug): the composed mapping is driven by the
impact link's own `observation_date`, not by the joined parent event's
date.  First conjunct: the C1 example (event dated 2020-01, lag 12,
high/increase) produces an empty mapping — not the claimed
`[(2021, 0.045), (2022, 0.0975), (2023, 0.15)]` — as soon as the link row
itself carries no date, even though the joined event date is valid.
Second conjunct: when the link carries its own date 2019-06, the ramp
starts at year(2019-06 + 12 months) = 2020 instead of the claimed
year(2020-01 + 12 months) = 2021. -/
theorem c1_link_date_bug :
    build_event_effects c1_df ("X") = []
    ∧ build_event_effects c1b_df ("X") =
        [(2020, 9/200), (2021, 39/400), (2022, 3/20)] := by
  constructor <;> decide

unseal Rat.add Rat.sub Rat.mul Rat.inv in
/-- Claim C4 (refuted, code bug): an impact link whose parent event is
missing from the event table still contributes a full ramp, because the
left join keeps the orphan row and the code then reads the link's own
`observation_date` (valid here) instead of the absent joined event date.
The claim requires this table to compose to the empty mapping. -/
theorem c4_orphan_link_contributes :
    build_event_effects c4_df ("X") =
      [(2020, 9/200), (2021, 39/400), (2022, 3/20)]
    ∧ build_event_effects c4_df ("X") ≠ [] := by
  constructor <;> decide

unseal Rat.add Rat.sub Rat.mul Rat.inv in
/-- Claim C10: `int(lag_months)` truncates toward zero before the month
offset is applied (11.9 months behaves as 11, −0.5 as 0), negative lags
are accepted without a guard, and with lag −24 the three ramp years
2018–2020 begin before the event's own calendar year 2020. -/
theorem c10_lag_truncation :
    build_event_effects (lagDf (119/10)) ("X") = build_event_effects (lagDf 11) ("X")
    ∧ build_event_effects (lagDf (119/10)) ("X") ≠ build_event_effects (lagDf 12) ("X")
    ∧ build_event_effects (lagDf (-1/2)) ("X") = build_event_effects (lagDf 0) ("X")
    ∧ build_event_effects (lagDf (-24)) ("X") =
        [(2018, 9/200), (2019, 39/400), (2020, 3/20)] := by
  refine ⟨by decide, by decide, by decide, by decide⟩

lemma sum_residual (pts : List (ℚ × ℚ)) (a b : ℚ) :
    (pts.map (fun p => p.2 - (a + b * p.1))).sum = sY pts - nQ pts * a - b * sX pts := by
  induction pts with
  | nil => simp [sY, nQ, sX]
  | cons p l ih =>
      simp only [List.map_cons, List.sum_cons, sY, nQ, sX, List.length_cons] at ih ⊢
      push_cast
      rw [ih]
      ring

lemma sum_x_residual (pts : List (ℚ × ℚ)) (a b : ℚ) :
    (pts.map (fun p => p.1 * (p.2 - (a + b * p.1)))).sum
      = sXY pts - a * sX pts - b * sXX pts := by
  induction pts with
  | nil => simp [sXY, sX, sXX]
  | cons p l ih =>
      simp only [List.map_cons, List.sum_cons, sXY, sX, sXX] at ih ⊢
      rw [ih]
      ring

lemma sse_decomp (pts : List (ℚ × ℚ)) (a b c d : ℚ) :
    SSE pts a b = SSE pts c d
      + (pts.map (fun p => ((c - a) + (d - b) * p.1) ^ 2)).sum
      + 2 * (c - a) * (pts.map (fun p => p.2 - (c + d * p.1))).sum
      + 2 * (d - b) * (pts.map (fun p => p.1 * (p.2 - (c + d * p.1)))).sum := by
  induction pts with
  | nil => simp [SSE]
  | cons p l ih =>
      simp only [SSE, List.map_cons, List.sum_cons] at ih ⊢
      rw [ih]
      ring

lemma normal_eq1 (pts : List (ℚ × ℚ)) (hn : nQ pts ≠ 0) :
    sY pts - nQ pts * polyfitIntercept pts - polyfitSlope pts * sX pts = 0 := by
  rw [polyfitIntercept]
  field_simp

lemma normal_eq2 (pts : List (ℚ × ℚ)) (hn : nQ pts ≠ 0) (hD : olsDenom pts ≠ 0) :
    sXY pts - polyfitIntercept pts * sX pts - polyfitSlope pts * sXX pts = 0 := by
  rw [polyfitIntercept, polyfitSlope]
  rw [olsDenom] at hD ⊢
  field_simp
  ring

lemma list_sum_sq_nonneg (l : List ℚ) (f : ℚ → ℚ) : 0 ≤ (l.map (fun x => f x ^ 2)).sum := by
  induction l with
  | nil => simp
  | cons x xs ih =>
      simp only [List.map_cons, List.sum_cons]
      have := sq_nonneg (f x)
      linarith

lemma ols_min (pts : List (ℚ × ℚ)) (hn : nQ pts ≠ 0) (hD : olsDenom pts ≠ 0) (a b : ℚ) :
    SSE pts (polyfitIntercept pts) (polyfitSlope pts) ≤ SSE pts a b := by
  have hdc := sse_decomp pts a b (polyfitIntercept pts) (polyfitSlope pts)
  rw [sum_residual pts (polyfitIntercept pts) (polyfitSlope pts),
    sum_x_residual pts (polyfitIntercept pts) (polyfitSlope pts),
    normal_eq1 pts hn, normal_eq2 pts hn hD] at hdc
  have hs : 0 ≤ (pts.map (fun p => ((polyfitIntercept pts - a) + (polyfitSlope pts - b) * p.1) ^ 2)).sum := by
    have := list_sum_sq_nonneg (pts.map (fun p => (polyfitIntercept pts - a) + (polyfitSlope pts - b) * p.1)) id
    simpa [List.map_map, Function.comp] using this
  linarith

lemma sampleVar_nonneg (l : List ℚ) : 0 ≤ sampleVar l := by
  rcases l with _ | ⟨x, xs⟩
  · simp [sampleVar]
  · apply div_nonneg
    · have := list_sum_sq_nonneg (x :: xs) (fun r => r - meanQ (x :: xs))
      simpa using this
    · have : (1 : ℚ) ≤ ((x :: xs).length : ℚ) := by
        exact_mod_cast Nat.succ_le_succ (Nat.zero_le xs.length)
      linarith

lemma residualsOf_length (pts : List (ℚ × ℚ)) : (residualsOf pts).length = pts.length := by
  simp [residualsOf]

/-- Claim C2: with at least two valid historical points (and a
well-posed regression, i.e. nonzero normal-equation determinant — with
duplicated x values the OLS solution would not be unique), the fitted
pair (intercept, slope) minimizes the sum of squared errors over all
affine models; sigma is the nonnegative square root of the unbiased
(N−1) sample variance of the fit residuals; and every target year is
mapped to `intercept + slope*year` with the band `forecast ± 1.96*sigma`. -/
theorem c2_fit_ols_ci (rows : List SeriesRow) (years : List Int)
    (h2 : 2 ≤ (validPoints rows).length)
    (hD : olsDenom (validPoints rows) ≠ 0) :
    (∀ a b : ℚ, SSE (validPoints rows) (polyfitIntercept (validPoints rows)) (polyfitSlope (validPoints rows))
        ≤ SSE (validPoints rows) a b)
    ∧ (0 ≤ sigmaOf (residualsOf (validPoints rows))
       ∧ sigmaOf (residualsOf (validPoints rows)) ^ 2
           = ((sampleVar (residualsOf (validPoints rows)) : ℚ) : ℝ))
    ∧ fit_linear_forecast rows years = years.map (fun y =>
        ⟨y,
         some (polyfitIntercept (validPoints rows) + polyfitSlope (validPoints rows) * (y : ℚ)),
         some (((polyfitIntercept (validPoints rows) + polyfitSlope (validPoints rows) * (y : ℚ) : ℚ) : ℝ)
           - (196/100 : ℝ) * sigmaOf (residualsOf (validPoints rows))),
         some (((polyfitIntercept (validPoints rows) + polyfitSlope (validPoints rows) * (y : ℚ) : ℚ) : ℝ)
           + (196/100 : ℝ) * sigmaOf (residualsOf (validPoints rows)))⟩) := by
  have hn : nQ (validPoints rows) ≠ 0 := by
    rw [nQ]
    have : (2 : ℚ) ≤ ((validPoints rows).length : ℚ) := by exact_mod_cast h2
    linarith
  have hres : 1 < (residualsOf (validPoints rows)).length := by
    rw [residualsOf_length]
    omega
  refine ⟨fun a b => ols_min (validPoints rows) hn hD a b, ⟨?_, ?_⟩, ?_⟩
  · rw [sigmaOf, if_pos hres]
    exact Real.sqrt_nonneg _
  · rw [sigmaOf, if_pos hres]
    rw [Real.sq_sqrt]
    exact_mod_cast sampleVar_nonneg (residualsOf (validPoints rows))
  · rw [fit_linear_forecast, if_neg (by omega)]

unseal Rat.add Rat.sub Rat.mul Rat.inv in
/-- Witness for C2 at the spec's concrete example: the perfectly linear
series 2018–2022 with values 10..50 forecast at 2023 gives 60 with a
collapsed confidence band (zero residual variance). -/
theorem c2_fit_ols_ci_witness :
    fit_linear_forecast linRows [2023] = [⟨2023, some 60, some 60, some 60⟩] := by
  have h := c2_fit_ols_ci linRows [2023] (by decide) (by decide)
  rw [h.2.2]
  have hfc : polyfitIntercept (validPoints linRows)
      + polyfitSlope (validPoints linRows) * ((2023 : Int) : ℚ) = 60 := by decide
  have hvar : sampleVar (residualsOf (validPoints linRows)) = 0 := by decide
  have hres : 1 < (residualsOf (validPoints linRows)).length := by decide
  have hsig : sigmaOf (residualsOf (validPoints linRows)) = 0 := by
    rw [sigmaOf, if_pos hres, hvar]
    simp
  simp only [List.map_cons, List.map_nil, hfc, hsig]
  norm_num

/-- Claim C5: with fewer than 2 valid historical points, every requested
target year gets a row whose forecast, ci_low and ci_high are all absent
(NaN); the function is total, so no exception is raised. -/
theorem c5_fit_insufficient_points (rows : List SeriesRow) (years : List Int)
    (h : (validPoints rows).length < 2) (_hne : years ≠ []) :
    fit_linear_forecast rows years = years.map (fun y => ⟨y, none, none, none⟩) := by
  rw [fit_linear_forecast, if_pos h]

/-- Witness for C5 at a concrete input: one valid point, three target
years, all-NaN output rows. -/
theorem c5_fit_insufficient_points_witness :
    fit_linear_forecast c5_rows [2025, 2026, 2027] =
      [⟨2025, none, none, none⟩, ⟨2026, none, none, none⟩, ⟨2027, none, none, none⟩] := by
  have h := c5_fit_insufficient_points c5_rows [2025, 2026, 2027] (by decide) (by decide)
  simpa using h

/-- Claim C8 (refuted): a fit requested with an empty target-year list
does not fail; at this concrete input it returns the normal empty
forecast table (the source builds `pd.DataFrame` from empty columns and
scalar NaNs, which raises nothing). -/
theorem c8_empty_years_counterexample :
    fit_linear_forecast linRows [] = [] := by
  rw [fit_linear_forecast]
  split <;> rfl

/-- Claim C8 as amended: for every input series, requesting a fit with an
empty target-year list returns the empty forecast table — a normal
absent-style result, not a hard failure. -/
theorem c8_empty_years_amended (rows : List SeriesRow) :
    fit_linear_forecast rows [] = [] := by
  rw [fit_linear_forecast]
  split <;> rfl

/-- Claim C6: the event step only creates the separate event-adjusted
column; the original year, forecast, ci_low and ci_high columns survive
unchanged, and the new column is the central estimate plus the year's
effect (0 where the mapping has no entry, NaN where the forecast was
NaN). -/
theorem c6_event_addition_preserves (fc : List ForecastRow) (effects : List (Int × ℚ)) :
    (add_event_effects fc effects).map forecastPart = fc
    ∧ (add_event_effects fc effects).map AdjRow.forecast_event
        = fc.map (fun r => r.forecast.map (fun v => v + ((effects.lookup r.year).getD 0))) := by
  constructor
  · rw [add_event_effects, List.map_map]
    exact List.map_id fc
  · rw [add_event_effects, List.map_map]
    rfl

/-- Claim C7: scenario adjustment multiplies each forecast value by the
fixed factor of the chosen scenario (0.85 / 1.0 / 1.15), is total (an
exhaustive match over the enumerated scenarios, so no error path), never
touches the confidence band, and is linear over event-effect addition:
scaling after adding an effect equals scaling the forecast plus the
scaled effect. -/
theorem c7_scenario_linear (fc : List ForecastRow) (s : Scenario) (v e : ℚ) :
    (apply_scenario fc s).map scenKeep = fc
    ∧ (apply_scenario fc s).map ScenRow.scenario
        = fc.map (fun r => r.forecast.map (fun x => x * scenario_factors s))
    ∧ scenario_factors Scenario.pessimistic = 85/100
    ∧ scenario_factors Scenario.base = 1
    ∧ scenario_factors Scenario.optimistic = 115/100
    ∧ (v + e) * scenario_factors s = v * scenario_factors s + scenario_factors s * e := by
  refine ⟨?_, ?_, rfl, rfl, rfl, by ring⟩
  · rw [apply_scenario, List.map_map]
    exact List.map_id fc
  · rw [apply_scenario, List.map_map]
    rfl

lemma insertLe_length {α : Type} (le : α → α → Bool) (x : α) (l : List α) :
    (insertLe le x l).length = l.length + 1 := by
  induction l with
  | nil => rfl
  | cons y ys ih =>
      rw [insertLe]
      split <;> simp [ih]

lemma insertionSort_length {α : Type} (le : α → α → Bool) (l : List α) :
    (insertionSort le l).length = l.length := by
  induction l with
  | nil => rfl
  | cons x xs ih =>
      rw [insertionSort, insertLe_length, ih, List.length_cons]

lemma sortByDate_length (l : List Rec) : (sortByDate l).length = l.length := by
  rw [sortByDate, insertionSort_length]

/-- Claim C9: `trend_growth` filters to the indicator, gender and
observation rows, drops rows missing value or date, sorts by date, and is
absent whenever fewer than two points qualify; with at least two points
it returns the last value minus the previous one — in particular a
single point gives absent and the points 2020:10, 2021:15 give +5. -/
theorem c9_trend_growth :
    (∀ (df : List Rec) (code gender : String),
        (qualifying df code gender).length < 2 → trend_growth df code gender = none)
    ∧ (∀ (df : List Rec) (code gender : String) (a b : Rec) (l : List Rec),
        (sortByDate (qualifying df code gender)).reverse = a :: b :: l →
        trend_growth df code gender = some (a.value_numeric.getD 0 - b.value_numeric.getD 0))
    ∧ trend_growth c9_one ("ACC") ("all") = none
    ∧ trend_growth c9_two ("ACC") ("all") = some 5 := by
  have hlt : ∀ (df : List Rec) (code gender : String),
      (qualifying df code gender).length < 2 → trend_growth df code gender = none := by
    intro df code gender h
    have hl : (sortByDate (qualifying df code gender)).length < 2 := by
      rw [sortByDate_length]
      exact h
    rw [trend_growth, if_pos hl]
  have hge : ∀ (df : List Rec) (code gender : String) (a b : Rec) (l : List Rec),
      (sortByDate (qualifying df code gender)).reverse = a :: b :: l →
      trend_growth df code gender = some (a.value_numeric.getD 0 - b.value_numeric.getD 0) := by
    intro df code gender a b l h
    have hlen : ¬ (sortByDate (qualifying df code gender)).length < 2 := by
      have hc := congrArg List.length h
      rw [List.length_reverse] at hc
      simp only [List.length_cons] at hc
      omega
    rw [trend_growth, if_neg hlen, h]
  refine ⟨hlt, hge, hlt c9_one ("ACC") ("all") (by decide), ?_⟩
  have h2 := hge c9_two ("ACC") ("all") c9r2 c9r1 [] (by decide)
  rw [h2]
  norm_num [c9r1, c9r2]

/-- Witness for C9's conditional parts at concrete inputs: the
single-point table yields absent via the fewer-than-two branch, and the
two-point table yields latest minus previous via the sorted-suffix
branch. -/
theorem c9_trend_growth_witness :
    trend_growth c9_one ("ACC") ("all") = none
    ∧ trend_growth c9_two ("ACC") ("all")
        = some (c9r2.value_numeric.getD 0 - c9r1.value_numeric.getD 0) := by
  refine ⟨c9_trend_growth.1 c9_one ("ACC") ("all") (by decide), ?_⟩
  exact c9_trend_growth.2.1 c9_two ("ACC") ("all") c9r2 c9r1 [] (by decide)


/-- Witness for C3 at a concrete link: magnitude high with direction
increase multiplies to 0.15, via the table theorem applied at these
inputs. -/
theorem c3_link_effect_table_witness :
    linkEffect (some ("high")) (some ("increase")) =
      (if (some ("high") : Option String) = some ("high") then (15/100 : ℚ)
       else if (some ("high") : Option String) = some ("medium") then 8/100
       else if (some ("high") : Option String) = some ("low") then 3/100
       else if (some ("high") : Option String) = some ("negligible") then 1/100
       else 0) *
      (if (some ("increase") : Option String) = some ("increase") then (1 : ℚ)
       else if (some ("increase") : Option String) = some ("decrease") then -1
       else 0) :=
  c3_link_effect_table (some ("high")) (some ("increase"))

/-- Witness for C6 at a concrete forecast table and effect mapping. -/
theorem c6_event_addition_preserves_witness :
    (add_event_effects fcEx effEx).map forecastPart = fcEx
    ∧ (add_event_effects fcEx effEx).map AdjRow.forecast_event
        = fcEx.map (fun r => r.forecast.map (fun v => v + ((effEx.lookup r.year).getD 0))) :=
  c6_event_addition_preserves fcEx effEx

/-- Witness for C7 at a concrete forecast table, the optimistic scenario
and concrete forecast/effect values. -/
theorem c7_scenario_linear_witness :
    (apply_scenario fcEx Scenario.optimistic).map scenKeep = fcEx
    ∧ (apply_scenario fcEx Scenario.optimistic).map ScenRow.scenario
        = fcEx.map (fun r => r.forecast.map (fun x => x * scenario_factors Scenario.optimistic))
    ∧ scenario_factors Scenario.pessimistic = 85/100
    ∧ scenario_factors Scenario.base = 1
    ∧ scenario_factors Scenario.optimistic = 115/100
    ∧ ((2 : ℚ) + 3) * scenario_factors Scenario.optimistic
        = 2 * scenario_factors Scenario.optimistic + scenario_factors Scenario.optimistic * 3 :=
  c7_scenario_linear fcEx Scenario.optimistic 2 3

/-- Witness for the amended C8 at a concrete input: the empty record
table with an empty target list. -/
theorem c8_empty_years_amended_witness :
    fit_linear_forecast [] [] = [] :=
  c8_empty_years_amended []

